import Mathlib

/-!
Shallow embedding of `check_x509_expire.py`, a Nagios-style probe that
fetches a certificate's `notBefore`/`notAfter` dates and classifies the
remaining validity time against warning/critical day thresholds.

Modelling conventions:
* Timestamps (`datetime.datetime`) are rationals counting seconds; Python
  datetime comparison and subtraction are exact, and `timedelta(days=n)`
  for an `int` `n` is exactly `n * 86400` seconds.
* `sys.exit(code)` together with the text printed on the way out is
  modelled by returning a `RunResult` record; the diagnostic lines the
  script prints are modelled by the `Msg` tag.
* The subprocess/regex part of `run` is an external effect; its three
  possible outcomes (`returncode ≠ 0`, regex mismatch, two parsed dates)
  are the constructors of `FetchOutcome`, and the control flow of `run`
  on each outcome is embedded faithfully.
-/

namespace CheckX509

/-! ### Status constants (source lines 36-46) -/

def STATUS_OK : Nat := 0
def STATUS_WARNING : Nat := 1
def STATUS_CRITICAL : Nat := 2
def STATUS_UNKNOWN : Nat := 3

/-! ### Output of `run` / `exit_with_perf_data` -/

/-- The performance line printed by `exit_with_perf_data`:
`'%s - Expires: %s%s | days_remaining=%s' % (PREFIXES[exit_code], after,
' Not valid until: %s' % before if before else '', perf_data_days)`.
`statusWord` is the key used to look up the `PREFIXES` word. A Python
`datetime` is always truthy, so `notValidUntil` carries `before` exactly
when the optional argument was passed. -/
structure PerfRec where
  statusWord : Nat
  expiresAt : ℚ
  notValidUntil : Option ℚ
  daysRemaining : ℚ
deriving DecidableEq, Repr

/-- Tag for the diagnostic line (if any) `run` prints before exiting. -/
inductive Msg where
  /-- no diagnostic printed before the perf-data line -/
  | noneMsg
  /-- `print('Certificate in no longer valid')` -/
  | expiredMsg
  /-- `print('Certificate is not yet valid')` -/
  | notYetValidMsg
  /-- `print('Failed to execute %s %s %s' ...)` (returncode ≠ 0) -/
  | execFailedMsg
  /-- `print(stdout)` then `print('Unexpected number of certificates')` -/
  | unexpectedCertsMsg
deriving DecidableEq, Repr

/-- What one invocation of `run` does on a given fetch outcome: the process
exit code, the diagnostic printed (if any), and the perf-data line
(`none` when the process exits before reaching `exit_with_perf_data`). -/
structure RunResult where
  exitCode : Nat
  message : Msg
  perfData : Option PerfRec
deriving DecidableEq, Repr

/-- `exit_with_perf_data(after, cur_time, exit_code, before=None)`
(source lines 175-192): computes `time_remaining = after - cur_time`,
`time_remaining_sec = time_remaining.total_seconds()` (exact in our
rational model; the py2 fallback computes the same value), then
`perf_data_days = time_remaining_sec / 60 / 60 / 24`, prints the perf
line and exits with `exit_code`. The `msg` argument records the
diagnostic the caller printed just before this call. -/
def exit_with_perf_data (after cur_time : ℚ) (exit_code : Nat)
    (before : Option ℚ) (msg : Msg) : RunResult :=
  let time_remaining_sec : ℚ := after - cur_time
  let perf_data_days : ℚ := time_remaining_sec / 60 / 60 / 24
  { exitCode := exit_code
    message := msg
    perfData := some
      { statusWord := exit_code
        expiresAt := after
        notValidUntil := before
        daysRemaining := perf_data_days } }

/-! ### The validity evaluator (source lines 153-168) -/

/-- The decision tree of `run` once `before` and `after` have been parsed
and `cur_time = datetime.datetime.utcnow()` has been taken:

```
if before <= cur_time:
    if after >= cur_time:
        if after - cur_time <= datetime.timedelta(days=warning):
            if after - cur_time <= datetime.timedelta(days=critical):
                exit_with_perf_data(after, cur_time, STATUS_CRITICAL)
            else:
                exit_with_perf_data(after, cur_time, STATUS_WARNING)
        else:
            exit_with_perf_data(after, cur_time, STATUS_OK)
    else:
        print('Certificate in no longer valid')
        exit_with_perf_data(after, cur_time, STATUS_CRITICAL)
else:
    print('Certificate is not yet valid')
    exit_with_perf_data(after, cur_time, STATUS_CRITICAL, before)
```
-/
def evaluate (before after cur_time : ℚ) (warning critical : Int) : RunResult :=
  if before ≤ cur_time then
    if after ≥ cur_time then
      if after - cur_time ≤ (warning : ℚ) * 86400 then
        if after - cur_time ≤ (critical : ℚ) * 86400 then
          exit_with_perf_data after cur_time STATUS_CRITICAL none Msg.noneMsg
        else
          exit_with_perf_data after cur_time STATUS_WARNING none Msg.noneMsg
      else
        exit_with_perf_data after cur_time STATUS_OK none Msg.noneMsg
    else
      exit_with_perf_data after cur_time STATUS_CRITICAL none Msg.expiredMsg
  else
    exit_with_perf_data after cur_time STATUS_CRITICAL (some before) Msg.notYetValidMsg

/-- The three ways the subprocess/regex stage of `run` can come out:
`procFailed` is `proc.returncode != 0` (connection refused, handshake
failure, no peer certificate: openssl exits non-zero), `badOutput` is
`returncode == 0` but the `notBefore=...\nnotAfter=...\n` regex does not
match, and `dates` is a successful parse of the two timestamps. -/
inductive FetchOutcome where
  | procFailed
  | badOutput
  | dates (before after : ℚ)
deriving DecidableEq, Repr

/-- `run(server, port, warning, critical, starttls)` (source lines
122-172), abstracted over the fetch outcome: on `returncode != 0` it
prints the failure diagnostic and exits `STATUS_CRITICAL` with no perf
data; on a regex mismatch it prints the raw stdout and
`'Unexpected number of certificates'` and exits `STATUS_CRITICAL` with no
perf data; on two parsed dates it runs the evaluator. -/
def run (f : FetchOutcome) (cur_time : ℚ) (warning critical : Int) : RunResult :=
  match f with
  | .procFailed =>
      { exitCode := STATUS_CRITICAL, message := Msg.execFailedMsg, perfData := none }
  | .badOutput =>
      { exitCode := STATUS_CRITICAL, message := Msg.unexpectedCertsMsg, perfData := none }
  | .dates b a => evaluate b a cur_time warning critical

/-- Modelled from the spec: the flat evaluator of §4.2 that, inside the
validity window, tests `remaining ≤ criticalDays` first, then
`remaining ≤ warningDays`, then returns OK. Written from the spec's
words, to be compared with the nested structure of `evaluate`. -/
def flatStatus (remaining : ℚ) (warning critical : Int) : Nat :=
  if remaining ≤ (critical : ℚ) * 86400 then STATUS_CRITICAL
  else if remaining ≤ (warning : ℚ) * 86400 then STATUS_WARNING
  else STATUS_OK

/-! ### Argument parsing (source lines 60-119) -/

/-- The `args_dict` built by `parse_args`. -/
structure ArgsDict where
  server : Option String
  port : Option Int
  warning : Option Int
  critical : Option Int
  starttls : Option String
deriving DecidableEq, Repr

/-- The initial `args_dict` of `parse_args` (all five values `None`). -/
def argsInit : ArgsDict :=
  { server := none, port := none, warning := none, critical := none, starttls := none }

/-- The specific diagnostic `print`ed just before `usage()` on each
validation-failure path (argument parsing and `__main__` checks). In the
source every one of these is followed by the usage text and
`sys.exit(STATUS_UNKNOWN)`. -/
inductive Diag where
  /-- `'-s requires a value, server'` -/
  | sRequiresValue
  /-- `'-p requires a value, port'` -/
  | pRequiresValue
  /-- `'-w requires a value, days'` -/
  | wRequiresValue
  /-- `'-c requires a value, days'` -/
  | cRequiresValue
  /-- `'-s requires a value, starttls protocol'` (the source reuses the
  `-s` wording on the `-t` path) -/
  | tRequiresValue
  /-- `'-p port must be an integer'` -/
  | pNotInt
  /-- `'-w days must be an integer'` -/
  | wNotInt
  /-- `'-c days must be an integer'` -/
  | cNotInt
  /-- `'Server must be provided'` -/
  | serverMissing
  /-- `'Port must be provided'` -/
  | portMissing
  /-- `'Warning days must be provided'` -/
  | warningMissing
  /-- `'Critical days must be provided'` -/
  | criticalMissing
  /-- `'Warning days must be greater than or equal to critical days'` -/
  | warningLessThanCritical
deriving DecidableEq, Repr

/-- Helper for `pyInt`: reads a non-empty run of decimal digits,
accumulating the value; any non-digit character makes the whole
conversion fail (as `int()` raises `ValueError`). -/
def decDigits : List Char → Nat → Option Nat
  | [], acc => some acc
  | ch :: cs, acc =>
      if '0' ≤ ch ∧ ch ≤ '9' then
        decDigits cs (acc * 10 + (ch.toNat - '0'.toNat))
      else none

/-- Python `int(str)` on the canonical forms an argv token takes: an
optional sign followed by one or more decimal digits; anything else
fails (`ValueError`). (`int()` additionally strips whitespace and
ignores underscores between digits; no claim exercises those forms.) -/
def pyInt (s : String) : Option Int :=
  match s.data with
  | [] => none
  | '-' :: [] => none
  | '-' :: cs => (decDigits cs 0).map fun n => -(n : Int)
  | '+' :: [] => none
  | '+' :: cs => (decDigits cs 0).map fun n => (n : Int)
  | cs => (decDigits cs 0).map fun n => (n : Int)

/-- The `while i < len(sys.argv)` loop of `parse_args`, over the argument
vector after the program name (the loop starts at `i = 1`). Each
recognised option consumes the immediately following token as its value
(for `-p`/`-w`/`-c` through Python `int()`, modelled by `pyInt`); a
missing value or a failed `int()` prints a diagnostic and exits through
`usage()` (the `.error` case); any other token falls through the
`if`/`elif` chain and the loop just advances past it. -/
def parseLoop : List String → ArgsDict → Except Diag ArgsDict
  | [], d => .ok d
  | [a], d =>
      if a = "-s" then .error Diag.sRequiresValue
      else if a = "-p" then .error Diag.pRequiresValue
      else if a = "-w" then .error Diag.wRequiresValue
      else if a = "-c" then .error Diag.cRequiresValue
      else if a = "-t" then .error Diag.tRequiresValue
      else .ok d
  | a :: v :: rest, d =>
      if a = "-s" then parseLoop rest { d with server := some v }
      else if a = "-p" then
        match pyInt v with
        | some n => parseLoop rest { d with port := some n }
        | none => .error Diag.pNotInt
      else if a = "-w" then
        match pyInt v with
        | some n => parseLoop rest { d with warning := some n }
        | none => .error Diag.wNotInt
      else if a = "-c" then
        match pyInt v with
        | some n => parseLoop rest { d with critical := some n }
        | none => .error Diag.cNotInt
      else if a = "-t" then parseLoop rest { d with starttls := some v }
      else parseLoop (v :: rest) d

/-- `parse_args()` on the argument vector after the program name. -/
def parse_args (argv : List String) : Except Diag ArgsDict :=
  parseLoop argv argsInit

/-! ### `__main__` validation (source lines 196-219) -/

/-- Where one invocation ends up after argument validation: either a
diagnostic (optional: the bare usage/help path prints none) plus the
usage text and `sys.exit(code)`, or a call
`run(server, port, warning, critical, starttls)` — the only place any
network activity or the evaluator happens. -/
inductive MainOutcome where
  | usageExit (diag : Option Diag) (code : Nat)
  | runInvoked (server : String) (port : Int) (warning critical : Int)
      (starttls : Option String)
deriving DecidableEq, Repr

/-- The `__main__` checks after `parse_args` succeeds (source lines
199-218): each missing required value, and then `warning < critical`,
prints its diagnostic, the usage text, and exits `STATUS_UNKNOWN`;
otherwise `run` is called with the five parsed values. -/
def validate_args (d : ArgsDict) : MainOutcome :=
  match d.server with
  | none => .usageExit (some Diag.serverMissing) STATUS_UNKNOWN
  | some s =>
    match d.port with
    | none => .usageExit (some Diag.portMissing) STATUS_UNKNOWN
    | some p =>
      match d.warning with
      | none => .usageExit (some Diag.warningMissing) STATUS_UNKNOWN
      | some w =>
        match d.critical with
        | none => .usageExit (some Diag.criticalMissing) STATUS_UNKNOWN
        | some c =>
          if w < c then .usageExit (some Diag.warningLessThanCritical) STATUS_UNKNOWN
          else .runInvoked s p w c d.starttls

/-- The whole `__main__` dispatch on the argument vector after the program
name: no arguments or an explicit help flag goes straight to `usage()`
(exit `STATUS_UNKNOWN`, no diagnostic), then `parse_args`, then the
validation checks; only a fully validated argument set reaches `run`. -/
def mainModel (argv : List String) : MainOutcome :=
  if argv = [] ∨ "-h" ∈ argv ∨ "--help" ∈ argv then
    .usageExit none STATUS_UNKNOWN
  else
    match parse_args argv with
    | .error dg => .usageExit (some dg) STATUS_UNKNOWN
    | .ok d => validate_args d

/-! ### Helper lemmas -/

@[simp] theorem exit_with_perf_data_exitCode (a t : ℚ) (e : Nat) (b : Option ℚ)
    (m : Msg) : (exit_with_perf_data a t e b m).exitCode = e := rfl

@[simp] theorem exit_with_perf_data_message (a t : ℚ) (e : Nat) (b : Option ℚ)
    (m : Msg) : (exit_with_perf_data a t e b m).message = m := rfl

@[simp] theorem exit_with_perf_data_perfData (a t : ℚ) (e : Nat) (b : Option ℚ)
    (m : Msg) : (exit_with_perf_data a t e b m).perfData =
      some { statusWord := e, expiresAt := a, notValidUntil := b,
             daysRemaining := (a - t) / 60 / 60 / 24 } := rfl

/-- `seconds / 60 / 60 / 24` is exactly `seconds / 86400`. -/
theorem div_sixty_sixty_24 (x : ℚ) : x / 60 / 60 / 24 = x / 86400 := by
  rw [div_div, div_div]
  norm_num

/-- Threshold casts preserve order after scaling to seconds. -/
theorem threshold_cast_le {w c : Int} (h : c ≤ w) :
    (c : ℚ) * 86400 ≤ (w : ℚ) * 86400 := by
  have hle : (c : ℚ) ≤ (w : ℚ) := by exact_mod_cast h
  linarith

/-! ### Claim theorems -/

/-- C1: for `notBefore ≤ now ≤ notAfter` and `criticalDays ≤ warningDays`,
the evaluator returns CRITICAL when `remaining = notAfter - now` is at
most `criticalDays` days, WARNING when it is more than `criticalDays`
but at most `warningDays` days, and OK when it is more than
`warningDays` days; both comparisons are inclusive (`≤`), and the result
is never UNKNOWN. -/
theorem evaluate_threshold_classification (b a t : ℚ) (w c : Int)
    (h1 : b ≤ t) (h2 : t ≤ a) (hcw : c ≤ w) :
    (a - t ≤ (c : ℚ) * 86400 → (evaluate b a t w c).exitCode = STATUS_CRITICAL) ∧
    ((c : ℚ) * 86400 < a - t → a - t ≤ (w : ℚ) * 86400 →
      (evaluate b a t w c).exitCode = STATUS_WARNING) ∧
    ((w : ℚ) * 86400 < a - t → (evaluate b a t w c).exitCode = STATUS_OK) ∧
    (evaluate b a t w c).exitCode ≠ STATUS_UNKNOWN := by
  have hq := threshold_cast_le hcw
  unfold evaluate
  rw [if_pos h1, if_pos (show a ≥ t from h2)]
  split_ifs with hw hc
  · exact ⟨fun _ => rfl, fun hlt _ => absurd hc (not_le.mpr hlt),
      fun hlt => absurd hw (not_le.mpr hlt),
      by simp [STATUS_CRITICAL, STATUS_UNKNOWN]⟩
  · exact ⟨fun hle => absurd hle hc, fun _ _ => rfl,
      fun hlt => absurd hw (not_le.mpr hlt),
      by simp [STATUS_WARNING, STATUS_UNKNOWN]⟩
  · exact ⟨fun hle => absurd (hle.trans hq) hw, fun _ hle => absurd hle hw,
      fun _ => rfl, by simp [STATUS_OK, STATUS_UNKNOWN]⟩

/-- C1 witness: the certificate of §8 Scenario 1 shifted to second counts
(10 days of validity left, thresholds 30/7 days). -/
theorem evaluate_threshold_classification_witness :
    ((864000 : ℚ) - 0 ≤ ((7 : Int) : ℚ) * 86400 →
      (evaluate 0 864000 0 30 7).exitCode = STATUS_CRITICAL) ∧
    (((7 : Int) : ℚ) * 86400 < (864000 : ℚ) - 0 →
      (864000 : ℚ) - 0 ≤ ((30 : Int) : ℚ) * 86400 →
      (evaluate 0 864000 0 30 7).exitCode = STATUS_WARNING) ∧
    (((30 : Int) : ℚ) * 86400 < (864000 : ℚ) - 0 →
      (evaluate 0 864000 0 30 7).exitCode = STATUS_OK) ∧
    (evaluate 0 864000 0 30 7).exitCode ≠ STATUS_UNKNOWN :=
  evaluate_threshold_classification 0 864000 0 30 7 (by norm_num) (by norm_num)
    (by norm_num)

/-- C2: when `now < notBefore` the evaluator returns CRITICAL, the output
line carries the `Not valid until:` clause with `notBefore`, and
`daysRemaining` is still `(notAfter - now)` in days. -/
theorem evaluate_not_yet_valid (b a t : ℚ) (w c : Int) (h : t < b) :
    (evaluate b a t w c).exitCode = STATUS_CRITICAL ∧
    (evaluate b a t w c).message = Msg.notYetValidMsg ∧
    (evaluate b a t w c).perfData = some
      { statusWord := STATUS_CRITICAL, expiresAt := a, notValidUntil := some b,
        daysRemaining := (a - t) / 86400 } := by
  unfold evaluate
  rw [if_neg (not_le.mpr h)]
  refine ⟨rfl, rfl, ?_⟩
  rw [← div_sixty_sixty_24]
  rfl

/-- C2 witness: `now` one day before `notBefore`. -/
theorem evaluate_not_yet_valid_witness :
    (evaluate 86400 864000 0 30 7).exitCode = STATUS_CRITICAL ∧
    (evaluate 86400 864000 0 30 7).message = Msg.notYetValidMsg ∧
    (evaluate 86400 864000 0 30 7).perfData = some
      { statusWord := STATUS_CRITICAL, expiresAt := 864000,
        notValidUntil := some 86400,
        daysRemaining := ((864000 : ℚ) - 0) / 86400 } :=
  evaluate_not_yet_valid 86400 864000 0 30 7 (by norm_num)

/-- C3: on a certificate window (a validity interval,
`notBefore ≤ notAfter`), when `now > notAfter` the evaluator returns
CRITICAL, prints the expiry diagnostic, and the reported `daysRemaining`
is strictly negative. -/
theorem evaluate_expired (b a t : ℚ) (w c : Int) (hwin : b ≤ a) (h : a < t) :
    (evaluate b a t w c).exitCode = STATUS_CRITICAL ∧
    (evaluate b a t w c).message = Msg.expiredMsg ∧
    ∃ q, (evaluate b a t w c).perfData = some q ∧ q.daysRemaining < 0 := by
  unfold evaluate
  rw [if_pos (hwin.trans h.le), if_neg (not_le.mpr h)]
  refine ⟨rfl, rfl, ⟨_, rfl, ?_⟩⟩
  show (a - t) / 60 / 60 / 24 < 0
  rw [div_sixty_sixty_24]
  exact div_neg_of_neg_of_pos (by linarith) (by norm_num)

/-- C3 witness: `now` one day past `notAfter`. -/
theorem evaluate_expired_witness :
    (evaluate 0 864000 950400 30 7).exitCode = STATUS_CRITICAL ∧
    (evaluate 0 864000 950400 30 7).message = Msg.expiredMsg ∧
    ∃ q, (evaluate 0 864000 950400 30 7).perfData = some q ∧
      q.daysRemaining < 0 :=
  evaluate_expired 0 864000 950400 30 7 (by norm_num) (by norm_num)

/-- C5: under `criticalDays ≤ warningDays` and inside the validity window,
the nested-conditional evaluator of the source agrees with the flat
evaluator (`flatStatus`, written from the spec's words: critical test
first, then warning, else OK). -/
theorem evaluate_eq_flatStatus (b a t : ℚ) (w c : Int)
    (hcw : c ≤ w) (h1 : b ≤ t) (h2 : t ≤ a) :
    (evaluate b a t w c).exitCode = flatStatus (a - t) w c := by
  have hq := threshold_cast_le hcw
  unfold evaluate flatStatus
  rw [if_pos h1, if_pos (show a ≥ t from h2)]
  split_ifs <;> first | rfl | linarith

/-- C5 witness: 10 days remaining against thresholds 30/7. -/
theorem evaluate_eq_flatStatus_witness :
    (evaluate 0 864000 0 30 7).exitCode = flatStatus ((864000 : ℚ) - 0) 30 7 :=
  evaluate_eq_flatStatus 0 864000 0 30 7 (by norm_num) (by norm_num) (by norm_num)

/-- C8: in every evaluator outcome the reported `daysRemaining` is the
exact fractional value `(notAfter - now) / 86400` (the source computes
`total_seconds() / 60 / 60 / 24`, the same rational), with no rounding,
and it is negative exactly when `now > notAfter`. -/
theorem evaluate_days_remaining_exact (b a t : ℚ) (w c : Int) :
    ∃ q, (evaluate b a t w c).perfData = some q ∧
      q.daysRemaining = (a - t) / 86400 ∧
      (q.daysRemaining < 0 ↔ a < t) := by
  have key := div_sixty_sixty_24 (a - t)
  have hneg : (a - t) / 60 / 60 / 24 < 0 ↔ a < t := by
    rw [key]
    constructor
    · intro h
      by_contra hcon
      have : (0 : ℚ) ≤ (a - t) / 86400 :=
        div_nonneg (by linarith [not_lt.mp hcon]) (by norm_num)
      linarith
    · intro h
      exact div_neg_of_neg_of_pos (by linarith) (by norm_num)
  unfold evaluate
  split_ifs <;> exact ⟨_, rfl, key, hneg⟩

/-- C4: with the window and thresholds fixed (`criticalDays ≤
warningDays`) and `notBefore ≤ now₁ ≤ now₂`, the status severity at
`now₂` is at least the one at `now₁`; the exit codes realize the
ordering OK < WARNING < CRITICAL. -/
theorem evaluate_severity_monotone (b a t1 t2 : ℚ) (w c : Int)
    (hb : b ≤ t1) (h12 : t1 ≤ t2) (hcw : c ≤ w) :
    STATUS_OK < STATUS_WARNING ∧ STATUS_WARNING < STATUS_CRITICAL ∧
    (evaluate b a t1 w c).exitCode ≤ (evaluate b a t2 w c).exitCode := by
  refine ⟨by decide, by decide, ?_⟩
  have hq := threshold_cast_le hcw
  unfold evaluate
  rw [if_pos hb, if_pos (hb.trans h12)]
  split_ifs <;>
    simp only [exit_with_perf_data_exitCode, STATUS_OK, STATUS_WARNING,
      STATUS_CRITICAL] <;>
    first
      | omega
      | linarith

/-- C4 witness: advancing `now` from 40 days before expiry to 20 days
before expiry with thresholds 30/7. -/
theorem evaluate_severity_monotone_witness :
    STATUS_OK < STATUS_WARNING ∧ STATUS_WARNING < STATUS_CRITICAL ∧
    (evaluate 0 3456000 0 30 7).exitCode ≤
      (evaluate 0 3456000 1728000 30 7).exitCode :=
  evaluate_severity_monotone 0 3456000 0 1728000 30 7 (by norm_num) (by norm_num)
    (by norm_num)

/-- C7: both fetch-failure kinds exit CRITICAL (code 2), not UNKNOWN, and
neither emits certificate dates or performance data: a failed openssl
invocation (connection/handshake/no-certificate, `returncode ≠ 0`)
prints the failure diagnostic, and unparsable output prints the raw
stdout before exiting. -/
theorem run_fetch_failures_critical (t : ℚ) (w c : Int) :
    (run FetchOutcome.procFailed t w c).exitCode = STATUS_CRITICAL ∧
    (run FetchOutcome.procFailed t w c).message = Msg.execFailedMsg ∧
    (run FetchOutcome.procFailed t w c).perfData = none ∧
    (run FetchOutcome.badOutput t w c).exitCode = STATUS_CRITICAL ∧
    (run FetchOutcome.badOutput t w c).message = Msg.unexpectedCertsMsg ∧
    (run FetchOutcome.badOutput t w c).perfData = none ∧
    STATUS_CRITICAL = 2 ∧ STATUS_CRITICAL ≠ STATUS_UNKNOWN :=
  ⟨rfl, rfl, rfl, rfl, rfl, rfl, rfl, by decide⟩

/-- C6: any parsed argument set whose warning threshold is below its
critical threshold is rejected by the `__main__` validation: the outcome
is a diagnostic plus the usage text and exit `STATUS_UNKNOWN`, `run`
(the only site of network activity and of the evaluator) is never
invoked, and when the other required options are present the diagnostic
is specifically the warning-less-than-critical one. -/
theorem validate_rejects_warning_lt_critical (d : ArgsDict) (w c : Int)
    (hw : d.warning = some w) (hc : d.critical = some c) (hlt : w < c) :
    (∃ dg, validate_args d = MainOutcome.usageExit (some dg) STATUS_UNKNOWN) ∧
    (∀ s p w2 c2 st, validate_args d ≠ MainOutcome.runInvoked s p w2 c2 st) ∧
    (∀ s p, d.server = some s → d.port = some p →
      validate_args d =
        MainOutcome.usageExit (some Diag.warningLessThanCritical) STATUS_UNKNOWN) := by
  rcases d with ⟨os, op, ow, oc, ost⟩
  obtain rfl : ow = some w := hw
  obtain rfl : oc = some c := hc
  cases os with
  | none =>
    refine ⟨⟨Diag.serverMissing, rfl⟩, ?_, ?_⟩
    · intro s p w2 c2 st hcon
      exact MainOutcome.noConfusion hcon
    · intro s p hs
      exact Option.noConfusion hs
  | some s0 =>
    cases op with
    | none =>
      refine ⟨⟨Diag.portMissing, rfl⟩, ?_, ?_⟩
      · intro s p w2 c2 st hcon
        exact MainOutcome.noConfusion hcon
      · intro s p _ hp
        exact Option.noConfusion hp
    | some p0 =>
      have hout : validate_args ⟨some s0, some p0, some w, some c, ost⟩ =
          MainOutcome.usageExit (some Diag.warningLessThanCritical) STATUS_UNKNOWN := by
        unfold validate_args
        simp only
        rw [if_pos hlt]
      exact ⟨⟨Diag.warningLessThanCritical, hout⟩,
        fun s p w2 c2 st hcon => MainOutcome.noConfusion (hout ▸ hcon),
        fun s p _ _ => hout⟩

/-- A concrete argument set with `-w 1 -c 2` (warning below critical) and
server and port present, used to exercise the validation theorems. -/
def badThresholdDict : ArgsDict :=
  { server := some "h", port := some 443, warning := some 1,
    critical := some 2, starttls := none }

/-- C6 witness: `-w 1 -c 2` with server and port present. -/
theorem validate_rejects_warning_lt_critical_witness :
    (∃ dg, validate_args badThresholdDict =
      MainOutcome.usageExit (some dg) STATUS_UNKNOWN) ∧
    (∀ s p w2 c2 st, validate_args badThresholdDict ≠
      MainOutcome.runInvoked s p w2 c2 st) ∧
    (∀ s p, badThresholdDict.server = some s → badThresholdDict.port = some p →
      validate_args badThresholdDict =
        MainOutcome.usageExit (some Diag.warningLessThanCritical) STATUS_UNKNOWN) :=
  validate_rejects_warning_lt_critical badThresholdDict 1 2 rfl rfl (by norm_num)

/-- C9 counterexample: the command line `-s h -p 443 -w -1 -c -2` passes
`parse_args` and every `__main__` check (the only threshold check is
`warning < critical`), so `run` is invoked with negative thresholds:
validation does not establish `warningDays ≥ 0` or `criticalDays ≥ 0`. -/
theorem validate_nonneg_counterexample :
    parse_args ["-s", "h", "-p", "443", "-w", "-1", "-c", "-2"] =
      Except.ok { server := some "h", port := some 443, warning := some (-1),
                  critical := some (-2), starttls := none } ∧
    validate_args { server := some "h", port := some 443, warning := some (-1),
                    critical := some (-2), starttls := none } =
      MainOutcome.runInvoked "h" 443 (-1) (-2) none ∧
    ((-1 : Int) < 0 ∧ (-2 : Int) < 0) :=
  ⟨rfl, rfl, by decide⟩

/-- C9 amended: every argument set that reaches `run` satisfies
`criticalDays ≤ warningDays`; nonnegativity of the thresholds is not
checked anywhere by validation. -/
theorem validate_run_warning_ge_critical (d : ArgsDict) (s : String)
    (p w c : Int) (st : Option String)
    (h : validate_args d = MainOutcome.runInvoked s p w c st) :
    c ≤ w := by
  rcases d with ⟨os, op, ow, oc, ost⟩
  cases os with
  | none => exact MainOutcome.noConfusion h
  | some s0 =>
    cases op with
    | none => exact MainOutcome.noConfusion h
    | some p0 =>
      cases ow with
      | none => exact MainOutcome.noConfusion h
      | some w0 =>
        cases oc with
        | none => exact MainOutcome.noConfusion h
        | some c0 =>
          unfold validate_args at h
          simp only at h
          split_ifs at h with hlt
          simp only [MainOutcome.runInvoked.injEq] at h
          obtain ⟨-, -, rfl, rfl, -⟩ := h
          omega

/-- C9 amended witness: `-w 2 -c 1` reaches `run` and `1 ≤ 2`. -/
theorem validate_run_warning_ge_critical_witness : (1 : Int) ≤ 2 :=
  validate_run_warning_ge_critical
    { server := some "h", port := some 443, warning := some 2,
      critical := some 1, starttls := none } "h" 443 2 1 none rfl

/-- C10: in `parse_args`, a token that is not one of `-s`, `-p`, `-w`,
`-c`, `-t` (and is not consumed as the value of an immediately
preceding option, which the option equations below eat) is silently
skipped: the loop step is the identity on the five parsed values and
produces no diagnostic and no exit. Each recognised option consumes the
next token and overwrites its field regardless of the previous value,
so when an option is given more than once the last occurrence's value
wins (the final conjunct exhibits this for a doubled `-w`). -/
theorem parse_args_skip_and_overwrite :
    (∀ tk rest d, tk ≠ "-s" → tk ≠ "-p" → tk ≠ "-w" → tk ≠ "-c" → tk ≠ "-t" →
      parseLoop (tk :: rest) d = parseLoop rest d) ∧
    (∀ v rest d,
      parseLoop ("-s" :: v :: rest) d = parseLoop rest { d with server := some v }) ∧
    (∀ v n rest d, pyInt v = some n →
      parseLoop ("-p" :: v :: rest) d = parseLoop rest { d with port := some n }) ∧
    (∀ v n rest d, pyInt v = some n →
      parseLoop ("-w" :: v :: rest) d = parseLoop rest { d with warning := some n }) ∧
    (∀ v n rest d, pyInt v = some n →
      parseLoop ("-c" :: v :: rest) d = parseLoop rest { d with critical := some n }) ∧
    (∀ v rest d,
      parseLoop ("-t" :: v :: rest) d = parseLoop rest { d with starttls := some v }) ∧
    (∀ v1 n1 v2 n2 rest d, pyInt v1 = some n1 → pyInt v2 = some n2 →
      parseLoop ("-w" :: v1 :: "-w" :: v2 :: rest) d =
        parseLoop rest { d with warning := some n2 }) := by
  refine ⟨?_, ?_, ?_, ?_, ?_, ?_, ?_⟩
  · intro tk rest d h1 h2 h3 h4 h5
    cases rest with
    | nil => simp [parseLoop, h1, h2, h3, h4, h5]
    | cons v r2 => simp [parseLoop, h1, h2, h3, h4, h5]
  · intro v rest d
    simp [parseLoop]
  · intro v n rest d h
    simp [parseLoop, h]
  · intro v n rest d h
    simp [parseLoop, h]
  · intro v n rest d h
    simp [parseLoop, h]
  · intro v rest d
    simp [parseLoop]
  · intro v1 n1 v2 n2 rest d h1 h2
    simp [parseLoop, h1, h2]

/-- C10 witness: an unrecognised token is skipped, and of two `-w`
occurrences the later one wins. -/
theorem parse_args_skip_and_overwrite_witness :
    parseLoop ["ignored"] argsInit = parseLoop [] argsInit ∧
    parseLoop ["-w", "5", "-w", "7"] argsInit =
      parseLoop [] { argsInit with warning := some 7 } :=
  ⟨parse_args_skip_and_overwrite.1 "ignored" [] argsInit (by decide) (by decide)
      (by decide) (by decide) (by decide),
    parse_args_skip_and_overwrite.2.2.2.2.2.2 "5" 5 "7" 7 [] argsInit rfl rfl⟩

end CheckX509
